import Mathlib

/-!
Verification of the openEMS Sensor Acquisition & Calibration Engine.

Shallow embedding conventions:
- C `float` arithmetic is modelled as exact rational arithmetic (`ℚ`);
  a stored `NAN` is modelled as `none` in `Option ℚ`.
- ADC conversions delivered by `analogRead` are supplied to each read
  function as explicit arguments (`s1`, `s2` are the first and second
  conversion available during one read call).
- Machine-word timestamp subtraction (`unsigned long`, 32 bit) is modelled
  with explicit arithmetic modulo 2^32 (`usub32`).
- Platform constants that live in `platform.h` (`ADC_MAX_VALUE`,
  `AREF_VOLTAGE`, `VOLTAGE_DIVIDER_RATIO`) are passed as parameters
  (`adcMax`, `aref`, `vDividerRatio`).
- `sqrt` and `log` from `<math.h>` are passed as function parameters where
  a model needs them, so every definition stays computable.
-/

namespace OpenEMS

/-- Measurement kinds of the sensor registry (lib/sensor_types.h usage). -/
inductive MeasurementType where
  | MEASURE_TEMPERATURE
  | MEASURE_PRESSURE
  | MEASURE_VOLTAGE
  | MEASURE_RPM
  | MEASURE_SPEED
  | MEASURE_HUMIDITY
  | MEASURE_ELEVATION
  | MEASURE_DIGITAL
deriving DecidableEq, Repr

/-- Calibration kinds (tags of the calibration records). -/
inductive CalibrationType where
  | CAL_NONE
  | CAL_LINEAR
  | CAL_PRESSURE_POLYNOMIAL
  | CAL_THERMISTOR_TABLE
  | CAL_THERMISTOR_STEINHART
  | CAL_THERMISTOR_BETA
  | CAL_PRESSURE_TABLE
  | CAL_VOLTAGE_DIVIDER
  | CAL_RPM
  | CAL_SPEED
deriving DecidableEq, Repr

/-- Linear calibration record (voltage span to output span). -/
structure LinearCalibration where
  voltage_min : ℚ
  voltage_max : ℚ
  output_min : ℚ
  output_max : ℚ
deriving DecidableEq, Repr

/-- Beta-equation thermistor calibration record. -/
structure BetaCalibration where
  bias_resistor : ℚ
  beta : ℚ
  r0 : ℚ
  t0 : ℚ
deriving DecidableEq, Repr

/-- Steinhart-Hart thermistor calibration record
(1/T(K) = A + B·ln(R) + C·ln(R)³). -/
structure ThermistorSteinhartCalibration where
  bias_resistor : ℚ
  steinhart_a : ℚ
  steinhart_b : ℚ
  steinhart_c : ℚ
deriving DecidableEq, Repr

/-- Quadratic-polynomial pressure calibration record (R = a·P² + b·P + c). -/
structure PolynomialCalibration where
  bias_resistor : ℚ
  poly_a : ℚ
  poly_b : ℚ
  poly_c : ℚ
deriving DecidableEq, Repr

/-- Thermistor lookup-table calibration record (descending resistance). -/
structure ThermistorLookupCalibration where
  bias_resistor : ℚ
  table_size : ℕ
  resistance_table : List ℚ
  temperature_table : List ℚ
deriving DecidableEq, Repr

/-- Pressure lookup-table calibration record (ascending resistance). -/
structure PressureTableCalibration where
  bias_resistor : ℚ
  table_size : ℕ
  resistance_table : List ℚ
  pressure_table : List ℚ
deriving DecidableEq, Repr

/-- Voltage-divider calibration record. -/
structure VoltageDividerCalibration where
  r1 : ℚ
  r2 : ℚ
  correction : ℚ
  offset : ℚ
deriving DecidableEq, Repr

/-- RPM (W-phase alternator) calibration record. -/
structure RPMCalibration where
  poles : ℕ
  pulley_ratio : ℚ
  calibration_mult : ℚ
  timeout_ms : ℕ
  min_rpm : ℕ
  max_rpm : ℕ
deriving DecidableEq, Repr

/-- Speed (hall effect) calibration record. -/
structure SpeedCalibration where
  pulses_per_rev : ℕ
  tire_circumference_mm : ℕ
  final_drive_ratio : ℚ
  calibration_mult : ℚ
  timeout_ms : ℕ
  max_speed_kph : ℕ
deriving DecidableEq, Repr

/-- A preset calibration record together with its actual shape.  In the C
source a preset is a `const void*` that each model blind-casts to the
record shape it expects; the sum type makes the shape explicit. -/
inductive PresetRecord where
  | linear (c : LinearCalibration)
  | beta (c : BetaCalibration)
  | steinhart (c : ThermistorSteinhartCalibration)
  | polynomial (c : PolynomialCalibration)
  | thermistorTable (c : ThermistorLookupCalibration)
  | pressureTable (c : PressureTableCalibration)
  | voltageDivider (c : VoltageDividerCalibration)
  | rpm (c : RPMCalibration)
  | speed (c : SpeedCalibration)
deriving DecidableEq, Repr

/-- Result of casting a preset pointer to `LinearCalibration`; a cast of a
record of another shape reinterprets memory, modelled as a zero record. -/
def PresetRecord.asLinear : PresetRecord → LinearCalibration
  | .linear c => c
  | _ => ⟨0, 0, 0, 0⟩

/-- Result of casting a preset pointer to `BetaCalibration`. -/
def PresetRecord.asBeta : PresetRecord → BetaCalibration
  | .beta c => c
  | _ => ⟨0, 0, 0, 0⟩

/-- Result of casting a preset pointer to
`ThermistorSteinhartCalibration`. -/
def PresetRecord.asSteinhart : PresetRecord → ThermistorSteinhartCalibration
  | .steinhart c => c
  | _ => ⟨0, 0, 0, 0⟩

/-- Result of casting a preset pointer to `PolynomialCalibration`. -/
def PresetRecord.asPolynomial : PresetRecord → PolynomialCalibration
  | .polynomial c => c
  | _ => ⟨0, 0, 0, 0⟩

/-- Result of casting a preset pointer to `ThermistorLookupCalibration`. -/
def PresetRecord.asThermistorTable : PresetRecord → ThermistorLookupCalibration
  | .thermistorTable c => c
  | _ => ⟨0, 0, [], []⟩

/-- Result of casting a preset pointer to `PressureTableCalibration`. -/
def PresetRecord.asPressureTable : PresetRecord → PressureTableCalibration
  | .pressureTable c => c
  | _ => ⟨0, 0, [], []⟩

/-- Result of casting a preset pointer to `VoltageDividerCalibration`. -/
def PresetRecord.asVoltageDivider : PresetRecord → VoltageDividerCalibration
  | .voltageDivider c => c
  | _ => ⟨0, 0, 0, 0⟩

/-- Result of casting a preset pointer to `RPMCalibration`. -/
def PresetRecord.asRPM : PresetRecord → RPMCalibration
  | .rpm c => c
  | _ => ⟨0, 0, 0, 0, 0, 0⟩

/-- Result of casting a preset pointer to `SpeedCalibration`. -/
def PresetRecord.asSpeed : PresetRecord → SpeedCalibration
  | .speed c => c
  | _ => ⟨0, 0, 0, 0, 0, 0⟩

/-- Modelled from the spec: `input.h` is not in the tree.  The RAM
custom-calibration union of the Input record; the members are the ones the
read functions dereference (`customCalibration.beta`, `.steinhart`,
`.pressureLinear`, `.pressurePolynomial`, `.voltageDivider`, `.rpm`,
`.speed`).  A C union is modelled as a product, faithful because each read
inspects exactly one member. -/
structure CustomCalibration where
  pressureLinear : LinearCalibration
  pressurePolynomial : PolynomialCalibration
  beta : BetaCalibration
  steinhart : ThermistorSteinhartCalibration
  voltageDivider : VoltageDividerCalibration
  rpm : RPMCalibration
  speed : SpeedCalibration
deriving DecidableEq, Repr

/-- Modelled from the spec: flag bits of the Input record (`input.h` is not
in the tree); only `useCustomCalibration` is read by the engine. -/
structure InputFlags where
  useCustomCalibration : Bool
deriving DecidableEq, Repr

/-- Modelled from the spec: the per-instance Input record (`input.h` is not
in the tree); fields follow spec section 3 (InputRecord) and the accesses
made by the read functions in the sources.  `value = none` models a stored
NAN. -/
structure Input where
  pin : ℕ
  sensorIndex : ℕ
  value : Option ℚ
  flags : InputFlags
  calibrationType : CalibrationType
  presetCalibration : Option PresetRecord
  customCalibration : CustomCalibration
deriving DecidableEq, Repr

/-- Registry descriptor entry (sensor_library/sensor_types.h,
`struct SensorInfo`); the read/init function pointers and the pin-kind
field are omitted, no lookup the claims touch reads them.
`label = none` models a null label pointer. -/
structure SensorInfo where
  name : String
  label : Option String
  measurementType : MeasurementType
  calibrationType : CalibrationType
  defaultCalibration : Option PresetRecord
  minReadInterval : ℕ
  minValue : ℚ
  maxValue : ℚ
  nameHash : ℕ
deriving DecidableEq, Repr

/-- Value of an out-of-bounds PROGMEM read (unspecified in C); the embedding
fixes it to 0, and no theorem below depends on it. -/
def progmemOOB : ℚ := 0

/-- Descending-order loop of `interpolate` (sensor_utils.cpp): C index `i`
runs from `tableSize-1` down to `0`; at `i = 0` the condition reads
`xTable[-1]`, an out-of-bounds access, modelled by `progmemOOB`. -/
def interpLoopD (v : ℚ) (xs ys : List ℚ) : ℕ → Option ℚ
  | 0 =>
      if v ≥ xs.getD 0 0 ∧ v ≤ progmemOOB then
        some (ys.getD 0 0 +
          ((v - xs.getD 0 0) / (xs.getD 1 0 - xs.getD 0 0)) *
            (ys.getD 1 0 - ys.getD 0 0))
      else none
  | i + 1 =>
      if v ≥ xs.getD (i + 1) 0 ∧ v ≤ xs.getD i 0 then
        some (ys.getD (i + 1) 0 +
          ((v - xs.getD (i + 1) 0) / (xs.getD (i + 2) 0 - xs.getD (i + 1) 0)) *
            (ys.getD (i + 2) 0 - ys.getD (i + 1) 0))
      else interpLoopD v xs ys i

/-- Linear interpolation in a descending-order lookup table
(sensor_utils.cpp `interpolate`). -/
def interpolate (v : ℚ) (tableSize : ℕ) (xs ys : List ℚ) : Option ℚ :=
  let x0 := xs.getD 0 0
  let xLast := xs.getD (tableSize - 1) 0
  if v ≥ x0 then some (ys.getD 0 0)
  else if v ≤ xLast then some (ys.getD (tableSize - 1) 0)
  else interpLoopD v xs ys (tableSize - 1)

/-- Forward loop of `interpolateAscending` (sensor_utils.cpp): C index `i`
runs from `0` while `i < tableSize - 1`; the first argument is the number
of remaining iterations. -/
def interpLoopA (v : ℚ) (xs ys : List ℚ) : ℕ → ℕ → Option ℚ
  | 0, _ => none
  | fuel + 1, i =>
      if v ≥ xs.getD i 0 ∧ v ≤ xs.getD (i + 1) 0 then
        some (ys.getD i 0 +
          ((v - xs.getD i 0) / (xs.getD (i + 1) 0 - xs.getD i 0)) *
            (ys.getD (i + 1) 0 - ys.getD i 0))
      else interpLoopA v xs ys fuel (i + 1)

/-- Linear interpolation in an ascending-order lookup table
(sensor_utils.cpp `interpolateAscending`). -/
def interpolateAscending (v : ℚ) (tableSize : ℕ) (xs ys : List ℚ) : Option ℚ :=
  let x0 := xs.getD 0 0
  let xLast := xs.getD (tableSize - 1) 0
  if v ≤ x0 then some (ys.getD 0 0)
  else if v ≥ xLast then some (ys.getD (tableSize - 1) 0)
  else interpLoopA v xs ys (tableSize - 1) 0

/-- Rail margin of the centralized ADC validation (sensor_utils.cpp). -/
def ADC_RAIL_MARGIN : ℤ := 3

/-- Centralized ADC reading with validation (sensor_utils.cpp
`readAnalogPin`): the first conversion `s1` is discarded (multiplexer
settling), the second conversion `s2` is the measurement; a reading within
`ADC_RAIL_MARGIN` of either rail is flagged invalid. -/
def readAnalogPin (adcMax : ℤ) (s1 s2 : ℤ) : ℤ × Bool :=
  (s2, decide (s2 < adcMax - ADC_RAIL_MARGIN) && decide (s2 > ADC_RAIL_MARGIN))

/-- Voltage-divider resistance from an ADC reading (sensor_utils.cpp
`calculateResistance`): NAN at or above full scale, else
`reading·bias/(adcMax − reading)`. -/
def calculateResistance (adcMax : ℤ) (reading : ℤ) (biasResistor : ℚ) : Option ℚ :=
  if reading ≥ adcMax then none
  else some ((reading : ℚ) * biasResistor / ((adcMax : ℚ) - (reading : ℚ)))

/-- Hard-coded fallback of the Beta thermistor model
(thermistors/beta.cpp: generic 10K NTC, β = 3950 K at 25 °C). -/
def betaFallbackCal : BetaCalibration :=
  { bias_resistor := 10000, beta := 3950, r0 := 10000, t0 := 25 }

/-- Hard-coded fallback of the Steinhart-Hart thermistor model
(thermistors/steinhart.cpp: generic 10K NTC coefficients
A = 1.129241e-3, B = 2.341077e-4, C = 8.775468e-8). -/
def steinhartFallbackCal : ThermistorSteinhartCalibration :=
  { bias_resistor := 10000,
    steinhart_a := 1129241/1000000000,
    steinhart_b := 2341077/10000000000,
    steinhart_c := 8775468/100000000000000 }

/-- Hard-coded fallback of the Linear model (linear_sensor.cpp:
0.5 V – 4.5 V mapped to 0 – 5 bar). -/
def linearFallbackCal : LinearCalibration :=
  { voltage_min := 1/2, voltage_max := 9/2, output_min := 0, output_max := 5 }

/-- Hard-coded fallback of the voltage-divider model (divider.cpp), derived
from the platform constant `VOLTAGE_DIVIDER_RATIO` (here `vDividerRatio`). -/
def voltageDividerFallbackCal (vDividerRatio : ℚ) : VoltageDividerCalibration :=
  { r1 := (vDividerRatio - 1) * 1000, r2 := 1000, correction := 1, offset := 0 }

/-- Hard-coded fallback of the W-phase RPM model (w_phase.cpp:
12-pole alternator, 3:1 pulley). -/
def rpmFallbackCal : RPMCalibration :=
  { poles := 12, pulley_ratio := 3, calibration_mult := 1,
    timeout_ms := 2000, min_rpm := 100, max_rpm := 10000 }

/-- Hard-coded fallback of the hall-effect speed model (hall_speed.cpp). -/
def speedFallbackCal : SpeedCalibration :=
  { pulses_per_rev := 100, tire_circumference_mm := 2000,
    final_drive_ratio := 373/100, calibration_mult := 1,
    timeout_ms := 2000, max_speed_kph := 300 }

/-- Calibration resolution of the Beta thermistor read
(thermistors/beta.cpp, the branch chain at the top of
`readThermistorBeta`). -/
def betaResolve (i : Input) : BetaCalibration :=
  if i.flags.useCustomCalibration ∧ i.calibrationType = CalibrationType.CAL_THERMISTOR_BETA then
    i.customCalibration.beta
  else if i.presetCalibration.isSome ∧ i.calibrationType = CalibrationType.CAL_THERMISTOR_BETA then
    (i.presetCalibration.getD (PresetRecord.beta betaFallbackCal)).asBeta
  else
    betaFallbackCal

/-- Calibration resolution of the Steinhart-Hart thermistor read
(thermistors/steinhart.cpp, the branch chain at the top of
`readThermistorSteinhart`). -/
def steinhartResolve (i : Input) : ThermistorSteinhartCalibration :=
  if i.flags.useCustomCalibration ∧ i.calibrationType = CalibrationType.CAL_THERMISTOR_STEINHART then
    i.customCalibration.steinhart
  else if i.presetCalibration.isSome ∧ i.calibrationType = CalibrationType.CAL_THERMISTOR_STEINHART then
    (i.presetCalibration.getD (PresetRecord.steinhart steinhartFallbackCal)).asSteinhart
  else
    steinhartFallbackCal

/-- Calibration resolution of the Linear model read (linear_sensor.cpp). -/
def linearResolve (i : Input) : LinearCalibration :=
  if i.flags.useCustomCalibration ∧ i.calibrationType = CalibrationType.CAL_LINEAR then
    i.customCalibration.pressureLinear
  else if i.presetCalibration.isSome ∧ i.calibrationType = CalibrationType.CAL_LINEAR then
    (i.presetCalibration.getD (PresetRecord.linear linearFallbackCal)).asLinear
  else
    linearFallbackCal

/-- Calibration resolution of the voltage-divider read (divider.cpp). -/
def voltageDividerResolve (vDividerRatio : ℚ) (i : Input) : VoltageDividerCalibration :=
  if i.flags.useCustomCalibration ∧ i.calibrationType = CalibrationType.CAL_VOLTAGE_DIVIDER then
    i.customCalibration.voltageDivider
  else if i.presetCalibration.isSome ∧ i.calibrationType = CalibrationType.CAL_VOLTAGE_DIVIDER then
    (i.presetCalibration.getD (PresetRecord.voltageDivider (voltageDividerFallbackCal vDividerRatio))).asVoltageDivider
  else
    voltageDividerFallbackCal vDividerRatio

/-- Calibration resolution of the polynomial pressure read
(pressure/polynomial.cpp); there is no fallback, the read stores NAN. -/
def polynomialResolve (i : Input) : Option PolynomialCalibration :=
  if i.flags.useCustomCalibration ∧ i.calibrationType = CalibrationType.CAL_PRESSURE_POLYNOMIAL then
    some i.customCalibration.pressurePolynomial
  else if i.presetCalibration.isSome ∧ i.calibrationType = CalibrationType.CAL_PRESSURE_POLYNOMIAL then
    some ((i.presetCalibration.getD (PresetRecord.polynomial ⟨0, 0, 0, 0⟩)).asPolynomial)
  else
    none

/-- Calibration resolution of the thermistor lookup-table read
(thermistors/table.cpp): the preset is required, the custom record is
never consulted. -/
def thermistorTableResolve (i : Input) : Option ThermistorLookupCalibration :=
  if i.calibrationType ≠ CalibrationType.CAL_THERMISTOR_TABLE ∨ i.presetCalibration = none then
    none
  else
    some ((i.presetCalibration.getD (PresetRecord.thermistorTable ⟨0, 0, [], []⟩)).asThermistorTable)

/-- Calibration resolution of the pressure lookup-table read
(pressure/table.cpp): the preset is required, the custom record is never
consulted. -/
def pressureTableResolve (i : Input) : Option PressureTableCalibration :=
  if i.calibrationType ≠ CalibrationType.CAL_PRESSURE_TABLE ∨ i.presetCalibration = none then
    none
  else
    some ((i.presetCalibration.getD (PresetRecord.pressureTable ⟨0, 0, [], []⟩)).asPressureTable)

/-- Registry lookup with validation (sensor_helpers.h `getSensorInfo`):
none when the index is out of bounds or the entry has a null label. -/
def getSensorInfo (lib : List SensorInfo) (index : ℕ) : Option SensorInfo :=
  if lib.length ≤ index then none
  else
    match lib.get? index with
    | none => none
    | some info => if info.label = none then none else some info

/-- Registry lookup without validation (sensor_helpers.h
`getSensorByIndex`). -/
def getSensorByIndex (lib : List SensorInfo) (index : ℕ) : Option SensorInfo :=
  if lib.length ≤ index then none else lib.get? index

/-- Linear scan of `getSensorIndexByHash` (sensor_helpers.h); `i` is the
index of the head of the remaining list; falls through to 0
(`SENSOR_NONE`). -/
def getSensorIndexByHashAux (h : ℕ) : List SensorInfo → ℕ → ℕ
  | [], _ => 0
  | e :: rest, i => if e.nameHash = h then i else getSensorIndexByHashAux h rest (i + 1)

/-- Registry lookup by precomputed name hash (sensor_helpers.h
`getSensorIndexByHash`): index of the first entry with that hash, 0 when
no entry has it. -/
def getSensorIndexByHash (lib : List SensorInfo) (h : ℕ) : ℕ :=
  getSensorIndexByHashAux h lib 0

/-- Conversion step of the Linear model (linear_sensor.cpp after the ADC
validation): clamp the measured voltage to `[voltage_min, voltage_max]`,
then scale linearly onto `[output_min, output_max]`. -/
def linearConvertVoltage (cal : LinearCalibration) (voltage : ℚ) : ℚ :=
  let v1 := if voltage < cal.voltage_min then cal.voltage_min else voltage
  let v2 := if v1 > cal.voltage_max then cal.voltage_max else v1
  ((v2 - cal.voltage_min) / (cal.voltage_max - cal.voltage_min)) *
      (cal.output_max - cal.output_min) + cal.output_min

/-- Linear sensor read (linear_sensor.cpp `readLinearSensor`). -/
def readLinearSensor (adcMax : ℤ) (aref : ℚ) (i : Input) (s1 s2 : ℤ) : Input :=
  let rv := readAnalogPin adcMax s1 s2
  if rv.2 = false then { i with value := none }
  else
    let cal := linearResolve i
    let voltage := (rv.1 : ℚ) * (aref / (adcMax : ℚ))
    { i with value := some (linearConvertVoltage cal voltage) }

/-- Beta thermistor read (thermistors/beta.cpp `readThermistorBeta`); the C
`log` is the parameter `logFn`. -/
def readThermistorBeta (logFn : ℚ → ℚ) (adcMax : ℤ) (i : Input) (s1 s2 : ℤ) : Input :=
  let rv := readAnalogPin adcMax s1 s2
  if rv.2 = false then { i with value := none }
  else
    let cal := betaResolve i
    match calculateResistance adcMax rv.1 cal.bias_resistor with
    | none => { i with value := none }
    | some R_thermistor =>
      if R_thermistor ≤ 0 then { i with value := none }
      else
        let T0_kelvin := cal.t0 + 27315/100
        let logR_ratio := logFn (R_thermistor / cal.r0)
        let temp_kelvin := 1 / (1 / T0_kelvin + logR_ratio / cal.beta)
        { i with value := some (temp_kelvin - 27315/100) }

/-- Steinhart-Hart thermistor read (thermistors/steinhart.cpp
`readThermistorSteinhart`); the C `log` is the parameter `logFn`. -/
def readThermistorSteinhart (logFn : ℚ → ℚ) (adcMax : ℤ) (i : Input) (s1 s2 : ℤ) : Input :=
  let rv := readAnalogPin adcMax s1 s2
  if rv.2 = false then { i with value := none }
  else
    let cal := steinhartResolve i
    match calculateResistance adcMax rv.1 cal.bias_resistor with
    | none => { i with value := none }
    | some R_thermistor =>
      if R_thermistor ≤ 0 then { i with value := none }
      else
        let logR := logFn R_thermistor
        let logR3 := logR * logR * logR
        let temp_kelvin :=
          1 / (cal.steinhart_a + cal.steinhart_b * logR + cal.steinhart_c * logR3)
        { i with value := some (temp_kelvin - 27315/100) }

/-- Thermistor lookup-table read (thermistors/table.cpp
`readThermistorLookup`). -/
def readThermistorLookup (adcMax : ℤ) (i : Input) (s1 s2 : ℤ) : Input :=
  let rv := readAnalogPin adcMax s1 s2
  if rv.2 = false then { i with value := none }
  else
    match thermistorTableResolve i with
    | none => { i with value := none }
    | some cal =>
      match calculateResistance adcMax rv.1 cal.bias_resistor with
      | none => { i with value := none }
      | some R_thermistor =>
        if R_thermistor ≤ 0 then { i with value := none }
        else
          { i with value :=
              interpolate R_thermistor cal.table_size cal.resistance_table cal.temperature_table }

/-- Pressure lookup-table read (pressure/table.cpp `readPressureTable`). -/
def readPressureTable (adcMax : ℤ) (i : Input) (s1 s2 : ℤ) : Input :=
  let rv := readAnalogPin adcMax s1 s2
  if rv.2 = false then { i with value := none }
  else
    match pressureTableResolve i with
    | none => { i with value := none }
    | some cal =>
      match calculateResistance adcMax rv.1 cal.bias_resistor with
      | none => { i with value := none }
      | some R_sensor =>
        if R_sensor ≤ 0 then { i with value := none }
        else
          { i with value :=
              interpolateAscending R_sensor cal.table_size cal.resistance_table cal.pressure_table }

/-- Polynomial pressure read (pressure/polynomial.cpp
`readPressurePolynomial`); the C `sqrt` is the parameter `sqrtFn`. -/
def readPressurePolynomial (sqrtFn : ℚ → ℚ) (adcMax : ℤ) (i : Input) (s1 s2 : ℤ) : Input :=
  let rv := readAnalogPin adcMax s1 s2
  if rv.2 = false then { i with value := none }
  else
    match polynomialResolve i with
    | none => { i with value := none }
    | some cal =>
      match calculateResistance adcMax rv.1 cal.bias_resistor with
      | none => { i with value := none }
      | some R_sensor =>
        if R_sensor ≤ 0 then { i with value := none }
        else
          let c := cal.poly_c - R_sensor
          let discriminant := cal.poly_b * cal.poly_b - 4 * cal.poly_a * c
          if discriminant < 0 then { i with value := none }
          else
            { i with value := some ((-cal.poly_b - sqrtFn discriminant) / (2 * cal.poly_a)) }

/-- Voltage-divider read (voltage/divider.cpp `readVoltageDivider`): a
single `analogRead` (the first conversion `s1`), rejected only below 10
counts. -/
def readVoltageDivider (adcMax : ℤ) (aref : ℚ) (vDividerRatio : ℚ) (i : Input) (s1 : ℤ) : Input :=
  let reading := s1
  if reading < 10 then { i with value := none }
  else
    let cal := voltageDividerResolve vDividerRatio i
    let divider_ratio := (cal.r1 + cal.r2) / cal.r2
    let voltage := ((reading : ℚ) * aref / (adcMax : ℚ)) * divider_ratio * cal.correction + cal.offset
    { i with value := some voltage }

/-- Direct voltage read (voltage/direct.cpp `readVoltageDirect`): a single
`analogRead`, rejected only below 10 counts. -/
def readVoltageDirect (adcMax : ℤ) (aref : ℚ) (i : Input) (s1 : ℤ) : Input :=
  if s1 < 10 then { i with value := none }
  else { i with value := some ((s1 : ℚ) * aref / (adcMax : ℤ)) }

/-- State of one frequency-capture counter set (w_phase.cpp /
hall_speed.cpp globals mutated by the interrupt handler). -/
structure FreqCounterState where
  pulse_count : ℕ
  last_time_us : ℕ
  pulse_interval_us : ℕ
deriving DecidableEq, Repr

/-- Modulus of C `unsigned long` on the target (32 bit). -/
def U32MOD : ℕ := 4294967296

/-- C unsigned 32-bit subtraction `a - b`. -/
def usub32 (a b : ℕ) : ℕ := (a % U32MOD + U32MOD - b % U32MOD) % U32MOD

/-- Calibration resolution of the W-phase RPM read (w_phase.cpp): custom
whenever the flag is set, else the registry entry's default calibration,
else the hard-coded fallback. -/
def rpmResolve (lib : List SensorInfo) (i : Input) : RPMCalibration :=
  if i.flags.useCustomCalibration then i.customCalibration.rpm
  else
    match getSensorByIndex lib i.sensorIndex with
    | some sensorInfo =>
      match sensorInfo.defaultCalibration with
      | some cal => cal.asRPM
      | none => rpmFallbackCal
    | none => rpmFallbackCal

/-- Calibration resolution of the hall-effect speed read (hall_speed.cpp),
same shape as the RPM resolution. -/
def speedResolve (lib : List SensorInfo) (i : Input) : SpeedCalibration :=
  if i.flags.useCustomCalibration then i.customCalibration.speed
  else
    match getSensorByIndex lib i.sensorIndex with
    | some sensorInfo =>
      match sensorInfo.defaultCalibration with
      | some cal => cal.asSpeed
      | none => speedFallbackCal
    | none => speedFallbackCal

/-- Engine RPM from the latest pulse interval (w_phase.cpp):
`60,000,000 / (interval · (poles/2) · pulley_ratio) · calibration_mult`. -/
def rpmComputedRate (cal : RPMCalibration) (interval_us : ℕ) : ℚ :=
  let pulses_per_rev := (cal.poles : ℚ) / 2
  let calibration_factor := pulses_per_rev * cal.pulley_ratio
  60000000 / ((interval_us : ℚ) * calibration_factor) * cal.calibration_mult

/-- Vehicle speed in km/h from the latest pulse interval (hall_speed.cpp). -/
def speedComputedRate (cal : SpeedCalibration) (interval_us : ℕ) : ℚ :=
  let freq_hz := 1000000 / (interval_us : ℚ)
  let revolutions_per_second := freq_hz / (cal.pulses_per_rev : ℚ)
  let wheel_speed_m_per_s :=
    revolutions_per_second * ((cal.tire_circumference_mm : ℚ) / 1000) / cal.final_drive_ratio
  wheel_speed_m_per_s * (18/5) * cal.calibration_mult

/-- W-phase RPM read (w_phase.cpp `readWPhaseRPM`): `st` is the
ISR-maintained counter state, `now_ms` the value of `millis()`.  On
timeout the value is set to exactly 0; with a recorded interval the rate
is range-checked against the calibration's min/max (NAN outside) and
smoothed 80 % / 20 %; with no recorded interval nothing is written. -/
def readWPhaseRPM (lib : List SensorInfo) (i : Input) (st : FreqCounterState) (now_ms : ℕ) : Input :=
  let cal := rpmResolve lib i
  let time_since_pulse := usub32 now_ms (st.last_time_us / 1000)
  if time_since_pulse > cal.timeout_ms then { i with value := some 0 }
  else if st.pulse_interval_us > 0 then
    let engine_rpm := rpmComputedRate cal st.pulse_interval_us
    if (cal.min_rpm : ℚ) ≤ engine_rpm ∧ engine_rpm ≤ (cal.max_rpm : ℚ) then
      match i.value with
      | some v =>
        if v > 0 then { i with value := some (v * (4/5) + engine_rpm * (1/5)) }
        else { i with value := some engine_rpm }
      | none => { i with value := some engine_rpm }
    else { i with value := none }
  else i

/-- Hall-effect speed read (hall_speed.cpp `readHallSpeed`): same shape as
the RPM read with range check `0 ≤ speed ≤ max_speed_kph` and 70 % / 30 %
smoothing. -/
def readHallSpeed (lib : List SensorInfo) (i : Input) (st : FreqCounterState) (now_ms : ℕ) : Input :=
  let cal := speedResolve lib i
  let time_since_pulse := usub32 now_ms (st.last_time_us / 1000)
  if time_since_pulse > cal.timeout_ms then { i with value := some 0 }
  else if st.pulse_interval_us > 0 then
    let speed_kph := speedComputedRate cal st.pulse_interval_us
    if 0 ≤ speed_kph ∧ speed_kph ≤ (cal.max_speed_kph : ℚ) then
      match i.value with
      | some v =>
        if v > 0 then { i with value := some (v * (7/10) + speed_kph * (3/10)) }
        else { i with value := some speed_kph }
      | none => { i with value := some speed_kph }
    else { i with value := none }
  else i

/-- Modelled from the spec: `config.h` is not in the tree; the default read
interval (ms).  No theorem below depends on its value. -/
def SENSOR_READ_INTERVAL_MS : ℕ := 100

/-- Reserved `SENSOR_NONE` placeholder at registry index 0
(sensors/none.h): null label, no calibration. -/
def noneSensorEntry : SensorInfo :=
  { name := "NONE", label := none,
    measurementType := MeasurementType.MEASURE_TEMPERATURE,
    calibrationType := CalibrationType.CAL_NONE,
    defaultCalibration := none, minReadInterval := 0,
    minValue := 0, maxValue := 0, nameHash := 0x2F75 }

/-- Default W-phase RPM preset (system_calibrations.h
`default_rpm_cal`). -/
def default_rpm_cal : RPMCalibration :=
  { poles := 12, pulley_ratio := 3, calibration_mult := 1,
    timeout_ms := 2000, min_rpm := 100, max_rpm := 10000 }

/-- Generic hall-effect speed preset (generic_calibrations.h
`hall_speed_sensor_cal`). -/
def hall_speed_sensor_cal : SpeedCalibration :=
  { pulses_per_rev := 100, tire_circumference_mm := 2000,
    final_drive_ratio := 373/100, calibration_mult := 1,
    timeout_ms := 2000, max_speed_kph := 300 }

/-- Generic 0.5–4.5 V → 0–5 bar linear boost preset
(generic_calibrations.h `generic_boost_linear_cal`). -/
def generic_boost_linear_cal : LinearCalibration :=
  { voltage_min := 1/2, voltage_max := 9/2, output_min := 0, output_max := 5 }

/-- Registry entry of the W-phase RPM sensor (sensors/frequency.h). -/
def wPhaseRPMEntry : SensorInfo :=
  { name := "W_PHASE_RPM", label := some "W-phase alternator RPM",
    measurementType := MeasurementType.MEASURE_RPM,
    calibrationType := CalibrationType.CAL_RPM,
    defaultCalibration := some (PresetRecord.rpm default_rpm_cal),
    minReadInterval := SENSOR_READ_INTERVAL_MS,
    minValue := 0, maxValue := 10000, nameHash := 0x1F3A }

/-- Registry entry of the hall-effect speed sensor (sensors/frequency.h). -/
def hallSpeedEntry : SensorInfo :=
  { name := "HALL_SPEED", label := some "Hall Effect Speed Sensor",
    measurementType := MeasurementType.MEASURE_SPEED,
    calibrationType := CalibrationType.CAL_SPEED,
    defaultCalibration := some (PresetRecord.speed hall_speed_sensor_cal),
    minReadInterval := SENSOR_READ_INTERVAL_MS,
    minValue := 0, maxValue := 300, nameHash := 0xB076 }

/-- Registry entry of the generic linear boost sensor (sensors/pressure.h
`GENERIC_BOOST`): declared physical range −1.0 … 3.0 bar. -/
def genericBoostEntry : SensorInfo :=
  { name := "GENERIC_BOOST", label := some "0.5-4.5V linear (0-5 bar)",
    measurementType := MeasurementType.MEASURE_PRESSURE,
    calibrationType := CalibrationType.CAL_LINEAR,
    defaultCalibration := some (PresetRecord.linear generic_boost_linear_cal),
    minReadInterval := SENSOR_READ_INTERVAL_MS,
    minValue := -1, maxValue := 3, nameHash := 0x59C8 }

/-- A neutral custom-calibration union used to build concrete inputs. -/
def zeroCustomCalibration : CustomCalibration :=
  { pressureLinear := ⟨0, 0, 0, 0⟩, pressurePolynomial := ⟨0, 0, 0, 0⟩,
    beta := ⟨0, 0, 0, 0⟩, steinhart := ⟨0, 0, 0, 0⟩,
    voltageDivider := ⟨0, 0, 0, 0⟩,
    rpm := ⟨0, 0, 0, 0, 0, 0⟩, speed := ⟨0, 0, 0, 0, 0, 0⟩ }

/-- A neutral input record used to build concrete test inputs. -/
def baseInput : Input :=
  { pin := 0, sensorIndex := 0, value := none,
    flags := { useCustomCalibration := false },
    calibrationType := CalibrationType.CAL_NONE,
    presetCalibration := none,
    customCalibration := zeroCustomCalibration }

/-- Modelled from the spec: the resolution order claim C1 states, generic
over the calibration-record type — (1) the custom record when the flag is
set and the record's stored tag matches the expected kind, (2) else a
present preset whose stored tag matches, (3) else the model's hard-coded
default.  The stored tag of both records is the Input's
`calibrationType` field, the only tag the data model keeps. -/
def claimOrderResolve {A : Type} (expected : CalibrationType) (i : Input)
    (customRec : A) (presetRec : Option A) (defaultRec : A) : A :=
  if i.flags.useCustomCalibration ∧ i.calibrationType = expected then customRec
  else if presetRec.isSome ∧ i.calibrationType = expected then presetRec.getD defaultRec
  else defaultRec

/-- Modelled from the spec: the resolution order claim C1 states, for a
model with no hard-coded default (step (3) fails, NAN). -/
def claimOrderResolveNoDefault {A : Type} (expected : CalibrationType) (i : Input)
    (customRec : A) (presetRec : Option A) : Option A :=
  if i.flags.useCustomCalibration ∧ i.calibrationType = expected then some customRec
  else if presetRec.isSome ∧ i.calibrationType = expected then presetRec
  else none

/-- Modelled from the spec: claim C1's resolution order applied to the
W-phase RPM read, whose preset is the registry entry's default
calibration. -/
def claimResolveRPM (lib : List SensorInfo) (i : Input) : RPMCalibration :=
  claimOrderResolve CalibrationType.CAL_RPM i i.customCalibration.rpm
    (((getSensorByIndex lib i.sensorIndex).bind SensorInfo.defaultCalibration).map
      PresetRecord.asRPM)
    rpmFallbackCal

/-- Concrete input refuting claim C1: the custom-calibration flag is set
but the record is tagged `CAL_LINEAR`, not the RPM kind the read expects. -/
def claim1CexInput : Input :=
  { baseInput with
    flags := { useCustomCalibration := true },
    calibrationType := CalibrationType.CAL_LINEAR,
    customCalibration :=
      { zeroCustomCalibration with
        rpm := { poles := 4, pulley_ratio := 2, calibration_mult := 1,
                 timeout_ms := 1000, min_rpm := 0, max_rpm := 8000 } } }

/-- Concrete input refuting claim C4: a custom-calibrated voltage-divider
sensor (r1 = r2 = 1000 Ω, no correction). -/
def claim4CexInput : Input :=
  { baseInput with
    flags := { useCustomCalibration := true },
    calibrationType := CalibrationType.CAL_VOLTAGE_DIVIDER,
    customCalibration :=
      { zeroCustomCalibration with
        voltageDivider := { r1 := 1000, r2 := 1000, correction := 1, offset := 0 } } }

/-- Concrete input refuting claim C5: the GENERIC_BOOST sensor with its
compiled-in preset (0.5–4.5 V → 0–5 bar) and no custom calibration. -/
def claim5CexInput : Input :=
  { baseInput with
    calibrationType := CalibrationType.CAL_LINEAR,
    presetCalibration := some (PresetRecord.linear generic_boost_linear_cal) }

/-- Replacement of a descriptor's declared physical range, used to state
that no read consults `minValue`/`maxValue`. -/
def setDeclaredRange (lo hi : ℚ) (s : SensorInfo) : SensorInfo :=
  { s with minValue := lo, maxValue := hi }

/-- Concrete input for the C6 witness: custom polynomial calibration whose
discriminant is negative at the sampled resistance. -/
def claim6Input1 : Input :=
  { baseInput with
    flags := { useCustomCalibration := true },
    calibrationType := CalibrationType.CAL_PRESSURE_POLYNOMIAL,
    customCalibration :=
      { zeroCustomCalibration with
        pressurePolynomial := { bias_resistor := 1, poly_a := 1, poly_b := 2, poly_c := 3 } } }

/-- Concrete input for the C6 witness: custom polynomial calibration whose
discriminant is the perfect square 4 at the sampled resistance. -/
def claim6Input2 : Input :=
  { baseInput with
    flags := { useCustomCalibration := true },
    calibrationType := CalibrationType.CAL_PRESSURE_POLYNOMIAL,
    customCalibration :=
      { zeroCustomCalibration with
        pressurePolynomial := { bias_resistor := 3, poly_a := 1, poly_b := 2, poly_c := 3 } } }

/-- Concrete input used by the frequency witnesses: custom-calibrated RPM
and speed records equal to the presets. -/
def freqTestInput : Input :=
  { baseInput with
    flags := { useCustomCalibration := true },
    customCalibration :=
      { zeroCustomCalibration with
        rpm := default_rpm_cal,
        speed := hall_speed_sensor_cal } }

end OpenEMS

namespace OpenEMS

/-- C3: the descending-order `interpolate` is NOT idempotent at interior
table knots.  On the 4-entry descending table x = [100, 50, 10, 5],
y = [0, 50, 90, 100], interpolating exactly at the knot x₁ = 50 returns
10 instead of the tabulated y₁ = 50: the loop matches the segment
[x₂, x₁] but interpolates with the pair (x₂, x₃), one segment off.  The
function's own documentation states the bracketing-segment formula, so
this is a defect of the code, not of the claim. -/
theorem claim3_descending_interpolation_bug :
    interpolate 50 4 [100, 50, 10, 5] [0, 50, 90, 100] = some 10 ∧ (10 : ℚ) ≠ 50 := by
  constructor
  · norm_num [interpolate, interpLoopD]
  · norm_num

/-- C7: `calculateResistance` returns `reading·Rbias/(ADC_MAX − reading)`
for every reading strictly between 0 and full scale, and NAN at or above
full scale. -/
theorem claim7_resistance_formula :
    ∀ (adcMax reading : ℤ) (biasResistor : ℚ),
      (0 < reading → reading < adcMax →
        calculateResistance adcMax reading biasResistor =
          some ((reading : ℚ) * biasResistor / ((adcMax : ℚ) - (reading : ℚ)))) ∧
      (adcMax ≤ reading → calculateResistance adcMax reading biasResistor = none) := by
  intro adcMax reading bias
  constructor
  · intro _ hlt
    unfold calculateResistance
    rw [if_neg (by omega)]
  · intro hge
    unfold calculateResistance
    rw [if_pos (by omega)]

/-- Witness for C7 at reading 512 of a 10 kΩ bias with full scale 1023,
and at full scale itself. -/
theorem claim7_witness :
    calculateResistance 1023 512 10000 = some (5120000 / 511) ∧
      calculateResistance 1023 1023 10000 = none := by
  constructor
  · rw [(claim7_resistance_formula 1023 512 10000).1 (by norm_num) (by norm_num)]
    norm_num
  · exact (claim7_resistance_formula 1023 1023 10000).2 (by norm_num)

theorem getSensorIndexByHashAux_not_found (h : ℕ) :
    ∀ (rest : List SensorInfo) (i : ℕ), (∀ x ∈ rest, x.nameHash ≠ h) →
      getSensorIndexByHashAux h rest i = 0 := by
  intro rest
  induction rest with
  | nil => intro i _; rfl
  | cons e tail ih =>
    intro i hall
    unfold getSensorIndexByHashAux
    rw [if_neg (hall e (List.mem_cons_self e tail))]
    exact ih (i + 1) (fun x hx => hall x (List.mem_cons_of_mem e hx))

/-- C9: registry lookups are total with defined sentinels: `getSensorInfo`
returns none for an out-of-bounds index and for any entry with a null
label, in particular for the reserved placeholder at index 0, and
`getSensorIndexByHash` of an unregistered hash returns index 0. -/
theorem claim9_registry_lookup_total :
    ∀ (lib : List SensorInfo) (index h : ℕ) (e : SensorInfo),
      (lib.length ≤ index → getSensorInfo lib index = none) ∧
      (lib.get? index = some e → e.label = none → getSensorInfo lib index = none) ∧
      ((∀ x ∈ lib, x.nameHash ≠ h) → getSensorIndexByHash lib h = 0) ∧
      (lib.get? 0 = some noneSensorEntry → getSensorInfo lib 0 = none) := by
  intro lib index h e
  refine ⟨?_, ?_, ?_, ?_⟩
  · intro hlen
    unfold getSensorInfo
    rw [if_pos hlen]
  · intro hget hlabel
    unfold getSensorInfo
    by_cases hlen : lib.length ≤ index
    · rw [if_pos hlen]
    · rw [if_neg hlen, hget]
      simp [hlabel]
  · intro hall
    exact getSensorIndexByHashAux_not_found h lib 0 hall
  · intro hget
    unfold getSensorInfo
    by_cases hlen : lib.length ≤ 0
    · rw [if_pos hlen]
    · rw [if_neg hlen, hget]
      simp [noneSensorEntry]

/-- Witness for C9 on the two-entry registry [NONE, W_PHASE_RPM]: an
out-of-bounds index, the null-label placeholder at index 0, and an
unregistered hash. -/
theorem claim9_witness :
    getSensorInfo [noneSensorEntry, wPhaseRPMEntry] 5 = none ∧
      getSensorInfo [noneSensorEntry, wPhaseRPMEntry] 0 = none ∧
      getSensorIndexByHash [noneSensorEntry, wPhaseRPMEntry] 9999 = 0 := by
  refine ⟨?_, ?_, ?_⟩
  · exact (claim9_registry_lookup_total [noneSensorEntry, wPhaseRPMEntry] 5 0 noneSensorEntry).1
      (by norm_num)
  · exact (claim9_registry_lookup_total [noneSensorEntry, wPhaseRPMEntry] 0 0 noneSensorEntry).2.1
      rfl rfl
  · exact (claim9_registry_lookup_total [noneSensorEntry, wPhaseRPMEntry] 0 9999
      noneSensorEntry).2.2.1 (by decide)

/-- C10: when the staleness timeout has not elapsed and no pulse interval
has ever been recorded (stored interval 0), both frequency reads return
the record unchanged — the value field is neither zeroed nor NaN'd. -/
theorem claim10_no_write_without_interval :
    ∀ (lib : List SensorInfo) (i : Input) (st : FreqCounterState) (now_ms : ℕ),
      (¬ usub32 now_ms (st.last_time_us / 1000) > (rpmResolve lib i).timeout_ms →
        st.pulse_interval_us = 0 → readWPhaseRPM lib i st now_ms = i) ∧
      (¬ usub32 now_ms (st.last_time_us / 1000) > (speedResolve lib i).timeout_ms →
        st.pulse_interval_us = 0 → readHallSpeed lib i st now_ms = i) := by
  intro lib i st now_ms
  constructor
  · intro ht h0
    simp only [readWPhaseRPM]
    rw [if_neg ht, h0]
    simp
  · intro ht h0
    simp only [readHallSpeed]
    rw [if_neg ht, h0]
    simp

/-- C1 counterexample: the W-phase RPM read does not check the custom
record's tag.  With `useCustomCalibration` set but the record tagged
`CAL_LINEAR`, the code still uses the custom RPM record, while the
claimed order falls through to the hard-coded default. -/
theorem claim1_counterexample :
    rpmResolve [] claim1CexInput ≠ claimResolveRPM [] claim1CexInput := by
  intro h
  have h4 : (rpmResolve [] claim1CexInput).poles = (claimResolveRPM [] claim1CexInput).poles := by
    rw [h]
  simp [rpmResolve, claimResolveRPM, claimOrderResolve, claim1CexInput, baseInput,
    zeroCustomCalibration, getSensorByIndex, rpmFallbackCal] at h4

/-- C1 amended: the Beta, Steinhart, Linear, VoltageDivider and Polynomial
reads resolve calibration in the claimed order custom → preset → default
(the Polynomial model's "default" being NaN); the two frequency reads use
the custom record whenever the flag is set, with no tag check, before the
registry preset and the hard-coded default; the two table reads never
consult the custom record and use the tag-matching preset or fail. -/
theorem claim1_amended_resolution :
    ∀ (lib : List SensorInfo) (i : Input) (vDividerRatio : ℚ),
      (betaResolve i = claimOrderResolve CalibrationType.CAL_THERMISTOR_BETA i
        i.customCalibration.beta (i.presetCalibration.map PresetRecord.asBeta)
        betaFallbackCal) ∧
      (steinhartResolve i = claimOrderResolve CalibrationType.CAL_THERMISTOR_STEINHART i
        i.customCalibration.steinhart (i.presetCalibration.map PresetRecord.asSteinhart)
        steinhartFallbackCal) ∧
      (linearResolve i = claimOrderResolve CalibrationType.CAL_LINEAR i
        i.customCalibration.pressureLinear (i.presetCalibration.map PresetRecord.asLinear)
        linearFallbackCal) ∧
      (voltageDividerResolve vDividerRatio i = claimOrderResolve CalibrationType.CAL_VOLTAGE_DIVIDER i
        i.customCalibration.voltageDivider (i.presetCalibration.map PresetRecord.asVoltageDivider)
        (voltageDividerFallbackCal vDividerRatio)) ∧
      (polynomialResolve i = claimOrderResolveNoDefault CalibrationType.CAL_PRESSURE_POLYNOMIAL i
        i.customCalibration.pressurePolynomial (i.presetCalibration.map PresetRecord.asPolynomial)) ∧
      (rpmResolve lib i =
        if i.flags.useCustomCalibration then i.customCalibration.rpm
        else (((getSensorByIndex lib i.sensorIndex).bind SensorInfo.defaultCalibration).map
          PresetRecord.asRPM).getD rpmFallbackCal) ∧
      (speedResolve lib i =
        if i.flags.useCustomCalibration then i.customCalibration.speed
        else (((getSensorByIndex lib i.sensorIndex).bind SensorInfo.defaultCalibration).map
          PresetRecord.asSpeed).getD speedFallbackCal) ∧
      (thermistorTableResolve i =
        if i.calibrationType = CalibrationType.CAL_THERMISTOR_TABLE then
          i.presetCalibration.map PresetRecord.asThermistorTable
        else none) ∧
      (pressureTableResolve i =
        if i.calibrationType = CalibrationType.CAL_PRESSURE_TABLE then
          i.presetCalibration.map PresetRecord.asPressureTable
        else none) := by
  intro lib i vDividerRatio
  refine ⟨?_, ?_, ?_, ?_, ?_, ?_, ?_, ?_, ?_⟩
  · cases hp : i.presetCalibration <;>
      simp [betaResolve, claimOrderResolve, hp]
  · cases hp : i.presetCalibration <;>
      simp [steinhartResolve, claimOrderResolve, hp]
  · cases hp : i.presetCalibration <;>
      simp [linearResolve, claimOrderResolve, hp]
  · cases hp : i.presetCalibration <;>
      simp [voltageDividerResolve, claimOrderResolve, hp]
  · cases hp : i.presetCalibration <;>
      simp [polynomialResolve, claimOrderResolveNoDefault, hp]
  · unfold rpmResolve
    cases hf : i.flags.useCustomCalibration
    · simp only [Bool.false_eq_true, if_false]
      cases hs : getSensorByIndex lib i.sensorIndex
      · simp
      · rename_i s
        cases hd : s.defaultCalibration <;> simp [hd]
    · simp
  · unfold speedResolve
    cases hf : i.flags.useCustomCalibration
    · simp only [Bool.false_eq_true, if_false]
      cases hs : getSensorByIndex lib i.sensorIndex
      · simp
      · rename_i s
        cases hd : s.defaultCalibration <;> simp [hd]
    · simp
  · unfold thermistorTableResolve
    cases hp : i.presetCalibration <;>
      by_cases ht : i.calibrationType = CalibrationType.CAL_THERMISTOR_TABLE <;>
        simp [ht, hp]
  · unfold pressureTableResolve
    cases hp : i.presetCalibration <;>
      by_cases ht : i.calibrationType = CalibrationType.CAL_PRESSURE_TABLE <;>
        simp [ht, hp]

/-- C4 counterexample: the voltage-divider read takes a single ADC sample
and checks only the low rail (`reading < 10`), so a full-scale (railed)
reading of 1023 produces a value (10 V here) instead of NaN. -/
theorem claim4_counterexample :
    (readVoltageDivider 1023 5 5 claim4CexInput 1023).value = some 10 ∧
      ¬ ((1023 : ℤ) < 1023 - ADC_RAIL_MARGIN) := by
  constructor
  · norm_num [readVoltageDivider, voltageDividerResolve, claim4CexInput, baseInput,
      zeroCustomCalibration, PresetRecord.asVoltageDivider]
  · norm_num [ADC_RAIL_MARGIN]

/-- C4 amended: every resistance/linear analog model (Linear, Beta,
Steinhart, ThermistorTable, PressureTable, Polynomial) goes through
`readAnalogPin` — the first conversion is discarded, the second is the
measurement, and a second conversion within the rail margin short-circuits
the read to NaN — while the voltage reads (divider and direct) sample once
and reject only readings below 10 counts, never the high rail. -/
theorem claim4_amended_sampling_and_rails :
    ∀ (adcMax : ℤ) (aref vDividerRatio : ℚ) (logFn sqrtFn : ℚ → ℚ) (i : Input) (s1 s1b s2 : ℤ),
      ((readAnalogPin adcMax s1 s2).1 = s2) ∧
      ((readAnalogPin adcMax s1 s2).2 = false →
        (readLinearSensor adcMax aref i s1 s2).value = none ∧
        (readThermistorBeta logFn adcMax i s1 s2).value = none ∧
        (readThermistorSteinhart logFn adcMax i s1 s2).value = none ∧
        (readThermistorLookup adcMax i s1 s2).value = none ∧
        (readPressureTable adcMax i s1 s2).value = none ∧
        (readPressurePolynomial sqrtFn adcMax i s1 s2).value = none) ∧
      (readLinearSensor adcMax aref i s1 s2 = readLinearSensor adcMax aref i s1b s2) ∧
      (readThermistorBeta logFn adcMax i s1 s2 = readThermistorBeta logFn adcMax i s1b s2) ∧
      (readThermistorSteinhart logFn adcMax i s1 s2 =
        readThermistorSteinhart logFn adcMax i s1b s2) ∧
      (readThermistorLookup adcMax i s1 s2 = readThermistorLookup adcMax i s1b s2) ∧
      (readPressureTable adcMax i s1 s2 = readPressureTable adcMax i s1b s2) ∧
      (readPressurePolynomial sqrtFn adcMax i s1 s2 = readPressurePolynomial sqrtFn adcMax i s1b s2) ∧
      (s1 < 10 → (readVoltageDivider adcMax aref vDividerRatio i s1).value = none) ∧
      (¬ s1 < 10 → ∃ v, (readVoltageDivider adcMax aref vDividerRatio i s1).value = some v) ∧
      (s1 < 10 → (readVoltageDirect adcMax aref i s1).value = none) ∧
      (¬ s1 < 10 → ∃ v, (readVoltageDirect adcMax aref i s1).value = some v) := by
  intro adcMax aref vDividerRatio logFn sqrtFn i s1 s1b s2
  refine ⟨rfl, ?_, rfl, rfl, rfl, rfl, rfl, rfl, ?_, ?_, ?_, ?_⟩
  · intro hrail
    refine ⟨?_, ?_, ?_, ?_, ?_, ?_⟩ <;>
      simp [readLinearSensor, readThermistorBeta, readThermistorSteinhart,
        readThermistorLookup, readPressureTable, readPressurePolynomial, hrail]
  · intro hlow
    simp [readVoltageDivider, hlow]
  · intro hlow
    simp only [readVoltageDivider]
    rw [if_neg hlow]
    exact ⟨_, rfl⟩
  · intro hlow
    simp [readVoltageDirect, hlow]
  · intro hlow
    simp only [readVoltageDirect]
    rw [if_neg hlow]
    exact ⟨_, rfl⟩

/-- Witness for C4 amended: a second conversion of 0 (low rail) NaN's the
beta and Steinhart thermistor reads, and a single divider sample of
3 counts NaN's the divider read while 1023 does not. -/
theorem claim4_witness :
    (readThermistorBeta (fun q => q) 1023 baseInput 500 0).value = none ∧
      (readThermistorSteinhart (fun q => q) 1023 baseInput 500 0).value = none ∧
      (readVoltageDivider 1023 5 5 baseInput 3).value = none ∧
      (∃ v, (readVoltageDivider 1023 5 5 baseInput 1023).value = some v) := by
  refine ⟨?_, ?_, ?_, ?_⟩
  · exact ((claim4_amended_sampling_and_rails 1023 5 5 (fun q => q) (fun q => q) baseInput
      500 0 0).2.1 (by decide)).2.1
  · exact ((claim4_amended_sampling_and_rails 1023 5 5 (fun q => q) (fun q => q) baseInput
      500 0 0).2.1 (by decide)).2.2.1
  · exact (claim4_amended_sampling_and_rails 1023 5 5 (fun q => q) (fun q => q) baseInput
      3 0 0).2.2.2.2.2.2.2.2.1 (by decide)
  · exact (claim4_amended_sampling_and_rails 1023 5 5 (fun q => q) (fun q => q) baseInput
      1023 0 0).2.2.2.2.2.2.2.2.2.1 (by decide)

/-- C2: for both frequency reads, a stale counter (no pulse within the
resolved timeout) writes exactly zero, never NaN; otherwise a rate
computed from the latest interval that falls outside the model's
validation range is written as NaN; all timeout defaults are 2000 ms. -/
theorem claim2_frequency_zero_and_range :
    ∀ (lib : List SensorInfo) (i : Input) (st : FreqCounterState) (now_ms : ℕ),
      (usub32 now_ms (st.last_time_us / 1000) > (rpmResolve lib i).timeout_ms →
        (readWPhaseRPM lib i st now_ms).value = some 0) ∧
      (¬ usub32 now_ms (st.last_time_us / 1000) > (rpmResolve lib i).timeout_ms →
        0 < st.pulse_interval_us →
        ¬ (((rpmResolve lib i).min_rpm : ℚ) ≤ rpmComputedRate (rpmResolve lib i) st.pulse_interval_us ∧
            rpmComputedRate (rpmResolve lib i) st.pulse_interval_us ≤ ((rpmResolve lib i).max_rpm : ℚ)) →
        (readWPhaseRPM lib i st now_ms).value = none) ∧
      (usub32 now_ms (st.last_time_us / 1000) > (speedResolve lib i).timeout_ms →
        (readHallSpeed lib i st now_ms).value = some 0) ∧
      (¬ usub32 now_ms (st.last_time_us / 1000) > (speedResolve lib i).timeout_ms →
        0 < st.pulse_interval_us →
        ¬ (0 ≤ speedComputedRate (speedResolve lib i) st.pulse_interval_us ∧
            speedComputedRate (speedResolve lib i) st.pulse_interval_us ≤
              ((speedResolve lib i).max_speed_kph : ℚ)) →
        (readHallSpeed lib i st now_ms).value = none) ∧
      rpmFallbackCal.timeout_ms = 2000 ∧ default_rpm_cal.timeout_ms = 2000 ∧
      speedFallbackCal.timeout_ms = 2000 ∧ hall_speed_sensor_cal.timeout_ms = 2000 := by
  intro lib i st now_ms
  refine ⟨?_, ?_, ?_, ?_, rfl, rfl, rfl, rfl⟩
  · intro ht
    simp only [readWPhaseRPM]
    rw [if_pos ht]
  · intro ht hpos hrange
    simp only [readWPhaseRPM]
    rw [if_neg ht, if_pos hpos, if_neg hrange]
  · intro ht
    simp only [readHallSpeed]
    rw [if_pos ht]
  · intro ht hpos hrange
    simp only [readHallSpeed]
    rw [if_neg ht, if_pos hpos, if_neg hrange]

/-- Witness for C2: with the default RPM calibration, a read 3000 ms after
the last pulse reports exactly zero, and a 1 µs interval (3.3 million RPM,
far above max 10000) reports NaN. -/
theorem claim2_witness :
    (readWPhaseRPM [] freqTestInput ⟨1, 0, 0⟩ 3000).value = some 0 ∧
      (readWPhaseRPM [] freqTestInput ⟨1, 0, 1⟩ 1000).value = none := by
  constructor
  · exact (claim2_frequency_zero_and_range [] freqTestInput ⟨1, 0, 0⟩ 3000).1 (by decide)
  · refine (claim2_frequency_zero_and_range [] freqTestInput ⟨1, 0, 1⟩ 1000).2.1
      (by decide) (by decide) ?_
    intro hcontra
    have h2 := hcontra.2
    norm_num [rpmComputedRate, rpmResolve, freqTestInput, baseInput, zeroCustomCalibration,
      default_rpm_cal] at h2

/-- C8: the Linear model maps a measured voltage of exactly `voltage_min`
to exactly `output_min`, `voltage_max` to `output_max`, clamps any voltage
beyond either bound to that endpoint's output instead of extrapolating,
and a valid (non-railed) reading always stores a value — never NaN. -/
theorem claim8_linear_endpoints_and_clamping :
    ∀ (cal : LinearCalibration) (v : ℚ) (adcMax : ℤ) (aref : ℚ) (i : Input) (s1 s2 : ℤ),
      cal.voltage_min < cal.voltage_max →
      (linearConvertVoltage cal cal.voltage_min = cal.output_min ∧
       linearConvertVoltage cal cal.voltage_max = cal.output_max ∧
       (v ≤ cal.voltage_min → linearConvertVoltage cal v = cal.output_min) ∧
       (cal.voltage_max ≤ v → linearConvertVoltage cal v = cal.output_max) ∧
       ((readAnalogPin adcMax s1 s2).2 = true →
         (readLinearSensor adcMax aref i s1 s2).value =
           some (linearConvertVoltage (linearResolve i) ((s2 : ℚ) * (aref / (adcMax : ℚ)))))) := by
  intro cal v adcMax aref i s1 s2 hlt
  have hne : cal.voltage_max - cal.voltage_min ≠ 0 := sub_ne_zero.mpr (ne_of_gt hlt)
  have hmin : linearConvertVoltage cal cal.voltage_min = cal.output_min := by
    simp only [linearConvertVoltage]
    rw [if_neg (lt_irrefl _), if_neg (not_lt.mpr (le_of_lt hlt)), sub_self, zero_div,
      zero_mul, zero_add]
  have hmax : linearConvertVoltage cal cal.voltage_max = cal.output_max := by
    simp only [linearConvertVoltage]
    rw [if_neg (not_lt.mpr (le_of_lt hlt)), if_neg (lt_irrefl _), div_self hne, one_mul]
    ring
  refine ⟨hmin, hmax, ?_, ?_, ?_⟩
  · intro hv
    rcases lt_or_eq_of_le hv with hv' | hv'
    · simp only [linearConvertVoltage]
      rw [if_pos hv', if_neg (not_lt.mpr (le_of_lt hlt)), sub_self, zero_div, zero_mul, zero_add]
    · rw [hv']
      exact hmin
  · intro hv
    rcases lt_or_eq_of_le hv with hv' | hv'
    · simp only [linearConvertVoltage]
      rw [if_neg (not_lt.mpr (le_of_lt (lt_trans hlt hv'))), if_pos hv', div_self hne, one_mul]
      ring
    · rw [← hv']
      exact hmax
  · intro hvalid
    simp only [readLinearSensor, hvalid]
    simp [readAnalogPin] at hvalid ⊢

/-- Witness for C8 with the hard-coded 0.5–4.5 V → 0–5 bar calibration:
the endpoints map exactly, 0 V clamps to 0 bar, 6 V clamps to 5 bar. -/
theorem claim8_witness :
    linearConvertVoltage linearFallbackCal (1/2) = 0 ∧
      linearConvertVoltage linearFallbackCal (9/2) = 5 ∧
      linearConvertVoltage linearFallbackCal 0 = 0 ∧
      linearConvertVoltage linearFallbackCal 6 = 5 := by
  have h := claim8_linear_endpoints_and_clamping linearFallbackCal 0 1023 5 baseInput 0 0
    (by norm_num [linearFallbackCal])
  have h6 := claim8_linear_endpoints_and_clamping linearFallbackCal 6 1023 5 baseInput 0 0
    (by norm_num [linearFallbackCal])
  refine ⟨?_, ?_, ?_, ?_⟩
  · simpa [linearFallbackCal] using h.1
  · simpa [linearFallbackCal] using h.2.1
  · exact h.2.2.1 (by norm_num [linearFallbackCal])
  · exact h6.2.2.2.1 (by norm_num [linearFallbackCal])

/-- C5 counterexample: the conversion models never consult the declared
[minValue, maxValue] of the registry entry.  The GENERIC_BOOST sensor
(declared range −1.0 … 3.0 bar) with its compiled-in 0.5–4.5 V → 0–5 bar
preset stores 5.0 bar for a near-full-scale reading instead of NaN. -/
theorem claim5_counterexample :
    (readLinearSensor 1023 5 claim5CexInput 1019 1019).value = some 5 ∧
      genericBoostEntry.maxValue = 3 ∧ ¬ ((5 : ℚ) ≤ 3) := by
  refine ⟨?_, rfl, by norm_num⟩
  norm_num [readLinearSensor, readAnalogPin, ADC_RAIL_MARGIN, linearResolve, claim5CexInput,
    baseInput, zeroCustomCalibration, PresetRecord.asLinear, generic_boost_linear_cal,
    linearConvertVoltage]

theorem getSensorByIndex_map (f : SensorInfo → SensorInfo) (lib : List SensorInfo) (index : ℕ) :
    getSensorByIndex (lib.map f) index = (getSensorByIndex lib index).map f := by
  unfold getSensorByIndex
  rw [List.length_map]
  by_cases hlen : lib.length ≤ index
  · rw [if_pos hlen, if_pos hlen]
    rfl
  · rw [if_neg hlen, if_neg hlen]
    exact List.get?_map f lib index

theorem rpmResolve_setDeclaredRange (lo hi : ℚ) (lib : List SensorInfo) (i : Input) :
    rpmResolve (lib.map (setDeclaredRange lo hi)) i = rpmResolve lib i := by
  unfold rpmResolve
  rw [getSensorByIndex_map]
  cases i.flags.useCustomCalibration
  · cases hs : getSensorByIndex lib i.sensorIndex
    · simp
    · rename_i s
      cases hd : s.defaultCalibration <;> simp [setDeclaredRange, hd]
  · simp

theorem speedResolve_setDeclaredRange (lo hi : ℚ) (lib : List SensorInfo) (i : Input) :
    speedResolve (lib.map (setDeclaredRange lo hi)) i = speedResolve lib i := by
  unfold speedResolve
  rw [getSensorByIndex_map]
  cases i.flags.useCustomCalibration
  · cases hs : getSensorByIndex lib i.sensorIndex
    · simp
    · rename_i s
      cases hd : s.defaultCalibration <;> simp [setDeclaredRange, hd]
  · simp

/-- C5 amended: no producing model consults the declared
[minValue, maxValue].  Each analog conversion model (Linear, Beta,
Steinhart, both tables, Polynomial, divider, direct) stores its computed
value once its own validity checks pass, whatever the magnitude — the
Linear model's output is confined to its calibration's
[output_min, output_max] by input clamping, which may exceed the declared
range; only the frequency models NaN an out-of-range rate, the range they
check is their calibration's min/max, and overwriting every descriptor's
declared range changes nothing about a frequency read. -/
theorem claim5_amended_range_handling :
    ∀ (cal : LinearCalibration) (v : ℚ) (adcMax : ℤ) (aref vDividerRatio : ℚ)
      (logFn sqrtFn : ℚ → ℚ) (i : Input) (s1 s2 : ℤ)
      (lib : List SensorInfo) (st : FreqCounterState) (now_ms : ℕ) (lo hi R : ℚ)
      (pc : PolynomialCalibration) (tcal : ThermistorLookupCalibration)
      (pcal : PressureTableCalibration),
      (cal.voltage_min ≤ cal.voltage_max → cal.output_min ≤ cal.output_max →
        cal.output_min ≤ linearConvertVoltage cal v ∧
          linearConvertVoltage cal v ≤ cal.output_max) ∧
      ((readAnalogPin adcMax s1 s2).2 = true →
        ∃ w, (readLinearSensor adcMax aref i s1 s2).value = some w) ∧
      ((readAnalogPin adcMax s1 s2).2 = true →
        calculateResistance adcMax s2 (betaResolve i).bias_resistor = some R → ¬ R ≤ 0 →
        ∃ w, (readThermistorBeta logFn adcMax i s1 s2).value = some w) ∧
      ((readAnalogPin adcMax s1 s2).2 = true →
        calculateResistance adcMax s2 (steinhartResolve i).bias_resistor = some R → ¬ R ≤ 0 →
        ∃ w, (readThermistorSteinhart logFn adcMax i s1 s2).value = some w) ∧
      ((readAnalogPin adcMax s1 s2).2 = true →
        polynomialResolve i = some pc →
        calculateResistance adcMax s2 pc.bias_resistor = some R → ¬ R ≤ 0 →
        ¬ pc.poly_b * pc.poly_b - 4 * pc.poly_a * (pc.poly_c - R) < 0 →
        ∃ w, (readPressurePolynomial sqrtFn adcMax i s1 s2).value = some w) ∧
      ((readAnalogPin adcMax s1 s2).2 = true →
        thermistorTableResolve i = some tcal →
        calculateResistance adcMax s2 tcal.bias_resistor = some R → ¬ R ≤ 0 →
        (readThermistorLookup adcMax i s1 s2).value =
          interpolate R tcal.table_size tcal.resistance_table tcal.temperature_table) ∧
      ((readAnalogPin adcMax s1 s2).2 = true →
        pressureTableResolve i = some pcal →
        calculateResistance adcMax s2 pcal.bias_resistor = some R → ¬ R ≤ 0 →
        (readPressureTable adcMax i s1 s2).value =
          interpolateAscending R pcal.table_size pcal.resistance_table pcal.pressure_table) ∧
      (¬ s1 < 10 → ∃ w, (readVoltageDivider adcMax aref vDividerRatio i s1).value = some w) ∧
      (¬ s1 < 10 → ∃ w, (readVoltageDirect adcMax aref i s1).value = some w) ∧
      (¬ usub32 now_ms (st.last_time_us / 1000) > (rpmResolve lib i).timeout_ms →
        0 < st.pulse_interval_us →
        ¬ (((rpmResolve lib i).min_rpm : ℚ) ≤
              rpmComputedRate (rpmResolve lib i) st.pulse_interval_us ∧
            rpmComputedRate (rpmResolve lib i) st.pulse_interval_us ≤
              ((rpmResolve lib i).max_rpm : ℚ)) →
        (readWPhaseRPM lib i st now_ms).value = none) ∧
      (¬ usub32 now_ms (st.last_time_us / 1000) > (speedResolve lib i).timeout_ms →
        0 < st.pulse_interval_us →
        ¬ (0 ≤ speedComputedRate (speedResolve lib i) st.pulse_interval_us ∧
            speedComputedRate (speedResolve lib i) st.pulse_interval_us ≤
              ((speedResolve lib i).max_speed_kph : ℚ)) →
        (readHallSpeed lib i st now_ms).value = none) ∧
      (readWPhaseRPM (lib.map (setDeclaredRange lo hi)) i st now_ms =
        readWPhaseRPM lib i st now_ms) ∧
      (readHallSpeed (lib.map (setDeclaredRange lo hi)) i st now_ms =
        readHallSpeed lib i st now_ms) := by
  intro cal v adcMax aref vDividerRatio logFn sqrtFn i s1 s2 lib st now_ms lo hi R pc tcal pcal
  have hfst : (readAnalogPin adcMax s1 s2).1 = s2 := rfl
  refine ⟨?_, ?_, ?_, ?_, ?_, ?_, ?_, ?_, ?_, ?_, ?_, ?_, ?_⟩
  · intro hv ho
    simp only [linearConvertVoltage]
    set v1 := if v < cal.voltage_min then cal.voltage_min else v with hv1
    set v2 := if v1 > cal.voltage_max then cal.voltage_max else v1 with hv2
    have h1 : cal.voltage_min ≤ v1 := by
      rw [hv1]
      by_cases hc : v < cal.voltage_min
      · simp [hc]
      · simp only [hc, if_false]
        exact le_of_not_lt hc
    have h2a : v2 ≤ cal.voltage_max := by
      rw [hv2]
      by_cases hc : v1 > cal.voltage_max
      · simp [hc]
      · simp only [hc, if_false]
        exact le_of_not_lt hc
    have h2b : cal.voltage_min ≤ v2 := by
      rw [hv2]
      by_cases hc : v1 > cal.voltage_max
      · simp only [hc, if_true]
        exact hv
      · simp only [hc, if_false]
        exact h1
    rcases eq_or_lt_of_le hv with heq | hlt
    · have hz : cal.voltage_max - cal.voltage_min = 0 := by rw [heq]; ring
      rw [hz, div_zero, zero_mul, zero_add]
      exact ⟨le_refl _, ho⟩
    · have hden : 0 < cal.voltage_max - cal.voltage_min := sub_pos.mpr hlt
      have ht0 : 0 ≤ (v2 - cal.voltage_min) / (cal.voltage_max - cal.voltage_min) :=
        div_nonneg (sub_nonneg.mpr h2b) (le_of_lt hden)
      have ht1 : (v2 - cal.voltage_min) / (cal.voltage_max - cal.voltage_min) ≤ 1 := by
        rw [div_le_one hden]
        linarith
      constructor
      · nlinarith [mul_nonneg ht0 (sub_nonneg.mpr ho)]
      · nlinarith [mul_le_of_le_one_left (sub_nonneg.mpr ho) ht1]
  · intro hvalid
    simp only [readLinearSensor, hvalid]
    simp
  · intro hvalid hres hRpos
    simp only [readThermistorBeta, hvalid, hfst, hres]
    rw [if_neg hRpos]
    exact ⟨_, rfl⟩
  · intro hvalid hres hRpos
    simp only [readThermistorSteinhart, hvalid, hfst, hres]
    rw [if_neg hRpos]
    exact ⟨_, rfl⟩
  · intro hvalid hpc hres hRpos hdisc
    simp only [readPressurePolynomial, hvalid, hpc, hfst, hres]
    rw [if_neg hRpos, if_neg hdisc]
    exact ⟨_, rfl⟩
  · intro hvalid htc hres hRpos
    simp only [readThermistorLookup, hvalid, htc, hfst, hres]
    rw [if_neg hRpos]
    simp
  · intro hvalid hpc hres hRpos
    simp only [readPressureTable, hvalid, hpc, hfst, hres]
    rw [if_neg hRpos]
    simp
  · intro hlow
    simp only [readVoltageDivider]
    rw [if_neg hlow]
    exact ⟨_, rfl⟩
  · intro hlow
    simp only [readVoltageDirect]
    rw [if_neg hlow]
    exact ⟨_, rfl⟩
  · intro ht hpos hrange
    simp only [readWPhaseRPM]
    rw [if_neg ht, if_pos hpos, if_neg hrange]
  · intro ht hpos hrange
    simp only [readHallSpeed]
    rw [if_neg ht, if_pos hpos, if_neg hrange]
  · simp only [readWPhaseRPM]
    rw [rpmResolve_setDeclaredRange]
  · simp only [readHallSpeed]
    rw [speedResolve_setDeclaredRange]

/-- Witness for C5 amended: the Beta and Steinhart reads store a value for
any positive resistance (here ≈ 9560 Ω at reading 500); with the generic
boost preset a 10 V input yields a value confined to the calibration's
output span [0, 5] — above the declared maximum of 3 bar, stored anyway; a
1 µs speed interval (≈ 3860 km/h, above max 300) stores NaN; and rewriting
every descriptor's declared range leaves an RPM read unchanged. -/
theorem claim5_witness :
    (∃ w, (readThermistorBeta (fun q => q) 1023 baseInput 500 500).value = some w) ∧
      (∃ w, (readThermistorSteinhart (fun q => q) 1023 baseInput 500 500).value = some w) ∧
      (readHallSpeed [] freqTestInput ⟨1, 0, 1⟩ 1000).value = none ∧
      readWPhaseRPM ([genericBoostEntry].map (setDeclaredRange 0 1)) freqTestInput
          ⟨0, 0, 0⟩ 1000 =
        readWPhaseRPM [genericBoostEntry] freqTestInput ⟨0, 0, 0⟩ 1000 ∧
      0 ≤ linearConvertVoltage generic_boost_linear_cal 10 ∧
      linearConvertVoltage generic_boost_linear_cal 10 ≤ 5 := by
  have hth := claim5_amended_range_handling generic_boost_linear_cal 10 1023 5 5
    (fun q => q) (fun q => q) baseInput 500 500 [] ⟨1, 0, 1⟩ 1000 0 1 (5000000/523)
    ⟨0, 0, 0, 0⟩ ⟨0, 0, [], []⟩ ⟨0, 0, [], []⟩
  have hsp := claim5_amended_range_handling generic_boost_linear_cal 10 1023 5 5
    (fun q => q) (fun q => q) freqTestInput 500 500 [] ⟨1, 0, 1⟩ 1000 0 1 1
    ⟨0, 0, 0, 0⟩ ⟨0, 0, [], []⟩ ⟨0, 0, [], []⟩
  have hrw := claim5_amended_range_handling generic_boost_linear_cal 10 1023 5 5
    (fun q => q) (fun q => q) freqTestInput 500 500 [genericBoostEntry] ⟨0, 0, 0⟩ 1000 0 1 1
    ⟨0, 0, 0, 0⟩ ⟨0, 0, [], []⟩ ⟨0, 0, [], []⟩
  refine ⟨?_, ?_, ?_, ?_, ?_, ?_⟩
  · exact hth.2.2.1 (by decide)
      (by norm_num [calculateResistance, betaResolve, baseInput, zeroCustomCalibration,
        betaFallbackCal])
      (by norm_num)
  · exact hth.2.2.2.1 (by decide)
      (by norm_num [calculateResistance, steinhartResolve, baseInput, zeroCustomCalibration,
        steinhartFallbackCal])
      (by norm_num)
  · refine hsp.2.2.2.2.2.2.2.2.2.2.1 (by decide) (by decide) ?_
    intro hcontra
    have h2 := hcontra.2
    norm_num [speedComputedRate, speedResolve, freqTestInput, baseInput, zeroCustomCalibration,
      hall_speed_sensor_cal] at h2
  · exact hrw.2.2.2.2.2.2.2.2.2.2.2.1
  · have h := hth.1 (by norm_num [generic_boost_linear_cal])
      (by norm_num [generic_boost_linear_cal])
    simpa [generic_boost_linear_cal] using h.1
  · have h := hth.1 (by norm_num [generic_boost_linear_cal])
      (by norm_num [generic_boost_linear_cal])
    simpa [generic_boost_linear_cal] using h.2

/-- C6: the polynomial pressure model solves a·P² + b·P + (c − R) = 0,
storing the root (−b − √disc)/(2a) — which indeed satisfies the quadratic
whenever √ squares back to the discriminant and a ≠ 0 — and stores NaN
whenever the discriminant is negative. -/
theorem claim6_polynomial_root :
    ∀ (sqrtFn : ℚ → ℚ) (adcMax : ℤ) (i : Input) (s1 s2 : ℤ)
      (cal : PolynomialCalibration) (R : ℚ),
      (readAnalogPin adcMax s1 s2).2 = true →
      polynomialResolve i = some cal →
      calculateResistance adcMax s2 cal.bias_resistor = some R →
      ¬ R ≤ 0 →
      (cal.poly_b * cal.poly_b - 4 * cal.poly_a * (cal.poly_c - R) < 0 →
        (readPressurePolynomial sqrtFn adcMax i s1 s2).value = none) ∧
      (¬ cal.poly_b * cal.poly_b - 4 * cal.poly_a * (cal.poly_c - R) < 0 →
        (readPressurePolynomial sqrtFn adcMax i s1 s2).value =
          some ((-cal.poly_b -
              sqrtFn (cal.poly_b * cal.poly_b - 4 * cal.poly_a * (cal.poly_c - R))) /
            (2 * cal.poly_a))) ∧
      (∀ P : ℚ, cal.poly_a ≠ 0 →
        sqrtFn (cal.poly_b * cal.poly_b - 4 * cal.poly_a * (cal.poly_c - R)) *
            sqrtFn (cal.poly_b * cal.poly_b - 4 * cal.poly_a * (cal.poly_c - R)) =
          cal.poly_b * cal.poly_b - 4 * cal.poly_a * (cal.poly_c - R) →
        (readPressurePolynomial sqrtFn adcMax i s1 s2).value = some P →
        cal.poly_a * P ^ 2 + cal.poly_b * P + (cal.poly_c - R) = 0) := by
  intro sqrtFn adcMax i s1 s2 cal R hvalid hres hcalc hRpos
  have hread : (readPressurePolynomial sqrtFn adcMax i s1 s2).value =
      if cal.poly_b * cal.poly_b - 4 * cal.poly_a * (cal.poly_c - R) < 0 then none
      else
        some ((-cal.poly_b -
            sqrtFn (cal.poly_b * cal.poly_b - 4 * cal.poly_a * (cal.poly_c - R))) /
          (2 * cal.poly_a)) := by
    simp only [readPressurePolynomial, hvalid, hres]
    have hfst : (readAnalogPin adcMax s1 s2).1 = s2 := rfl
    simp only [hfst, hcalc]
    rw [if_neg hRpos]
    by_cases hd : cal.poly_b * cal.poly_b - 4 * cal.poly_a * (cal.poly_c - R) < 0
    · simp [hd]
    · simp [hd]
  refine ⟨?_, ?_, ?_⟩
  · intro hd
    rw [hread, if_pos hd]
  · intro hd
    rw [hread, if_neg hd]
  · intro P ha hs hP
    rw [hread] at hP
    by_cases hd : cal.poly_b * cal.poly_b - 4 * cal.poly_a * (cal.poly_c - R) < 0
    · rw [if_pos hd] at hP
      exact absurd hP (by simp)
    · rw [if_neg hd] at hP
      have hP2 : P = (-cal.poly_b -
          sqrtFn (cal.poly_b * cal.poly_b - 4 * cal.poly_a * (cal.poly_c - R))) /
          (2 * cal.poly_a) := by
        exact (Option.some.injEq _ _).mp hP.symm
      set s := sqrtFn (cal.poly_b * cal.poly_b - 4 * cal.poly_a * (cal.poly_c - R)) with hsdef
      have key : cal.poly_a * ((-cal.poly_b - s) / (2 * cal.poly_a)) ^ 2 +
          cal.poly_b * ((-cal.poly_b - s) / (2 * cal.poly_a)) + (cal.poly_c - R) =
          (s * s - (cal.poly_b * cal.poly_b - 4 * cal.poly_a * (cal.poly_c - R))) /
            (4 * cal.poly_a) := by
        field_simp
        ring
      rw [hP2, key, hs, sub_self, zero_div]

/-- Witness for C6: with coefficients a = 1, b = 2, c = 3, a sampled
resistance of 1 Ω gives discriminant −4 and NaN, a sampled resistance of
3 Ω gives discriminant 4 and the root −2, which satisfies the quadratic. -/
theorem claim6_witness :
    (readPressurePolynomial (fun _ => 2) 1000 claim6Input1 500 500).value = none ∧
      (readPressurePolynomial (fun _ => 2) 1000 claim6Input2 500 500).value = some (-2) ∧
      (1 : ℚ) * (-2) ^ 2 + 2 * (-2) + (3 - 3) = 0 := by
  refine ⟨?_, ?_, by norm_num⟩
  · have h := (claim6_polynomial_root (fun _ => 2) 1000 claim6Input1 500 500
      ⟨1, 1, 2, 3⟩ 1 (by decide)
      (by norm_num [polynomialResolve, claim6Input1, baseInput, zeroCustomCalibration])
      (by norm_num [calculateResistance]) (by norm_num)).1 (by norm_num)
    exact h
  · have h := (claim6_polynomial_root (fun _ => 2) 1000 claim6Input2 500 500
      ⟨3, 1, 2, 3⟩ 3 (by decide)
      (by norm_num [polynomialResolve, claim6Input2, baseInput, zeroCustomCalibration])
      (by norm_num [calculateResistance]) (by norm_num)).2.1 (by norm_num)
    rw [h]
    norm_num

/-- Witness for C10: 1000 ms after the last pulse (timeout 2000 ms), with
no interval recorded, both reads leave the record untouched. -/
theorem claim10_witness :
    readWPhaseRPM [] freqTestInput ⟨0, 0, 0⟩ 1000 = freqTestInput ∧
      readHallSpeed [] freqTestInput ⟨0, 0, 0⟩ 1000 = freqTestInput := by
  constructor
  · exact (claim10_no_write_without_interval [] freqTestInput ⟨0, 0, 0⟩ 1000).1 (by decide) rfl
  · exact (claim10_no_write_without_interval [] freqTestInput ⟨0, 0, 0⟩ 1000).2 (by decide) rfl

end OpenEMS
